import Mathlib

/-!
# Verification of the moderator-notification / giveaway-hosting bot

A shallow embedding of `src/index.js` (the active interaction handler, the
`/notify` HTTP endpoint) and of the commented-out multi-step giveaway
builder wizard at the end of that file.  External effectful calls into the
chat platform (channel fetch, channel send, user fetch, direct message
send, channel creation) are modelled by a `Gateway` record of outcomes: a
`false` field means the corresponding call throws / fails.  JavaScript
`Map` objects are modelled as association lists with `Map.set` /
`Map.get` / `Map.delete` semantics, and JavaScript string truthiness
(`s || 'None'`) is made explicit.
-/

set_option autoImplicit false

namespace MikuBot

/-! ## JS `Map` semantics over association lists -/

/-- `Map.set k v`: replaces the value at `k` in place if present, else appends. -/
def mapSet {α : Type} (m : List (String × α)) (k : String) (v : α) :
    List (String × α) :=
  match m with
  | [] => [(k, v)]
  | (k', v') :: rest =>
      if k' = k then (k, v) :: rest else (k', v') :: mapSet rest k v

/-- `Map.get k`: first value stored under `k`, if any. -/
def mapGet {α : Type} (m : List (String × α)) (k : String) : Option α :=
  match m with
  | [] => none
  | (k', v') :: rest => if k' = k then some v' else mapGet rest k

/-- `Map.delete k`: removes the entry stored under `k`. -/
def mapDelete {α : Type} (m : List (String × α)) (k : String) :
    List (String × α) :=
  match m with
  | [] => []
  | (k', v') :: rest =>
      if k' = k then mapDelete rest k else (k', v') :: mapDelete rest k

/-- Number of entries stored under key `k`. -/
def countKey {α : Type} (m : List (String × α)) (k : String) : Nat :=
  m.countP (fun p => p.1 = k)

/-! ## JS string helpers -/

/-- JS `a.startsWith(b)`. -/
def jsStartsWith (s p : String) : Bool :=
  p.data.isPrefixOf s.data

/-- JS `s || d` for a string `s`: the empty string is falsy. -/
def jsOr (s d : String) : String :=
  if s = "" then d else s

/-- JS `o || d` where `o` may be `undefined` (`none`) or a string; both
`undefined` and the empty string are falsy. -/
def jsOrOpt (o : Option String) (d : String) : String :=
  match o with
  | none => d
  | some s => if s = "" then d else s

/-- JS string coercion of a possibly-`undefined` value, as in a template
literal: `undefined` renders as `"undefined"`. -/
def jsCoe (o : Option String) : String :=
  match o with
  | none => "undefined"
  | some s => s

/-- JS `s.toLowerCase()` on the ASCII status strings involved: lowercase
every character. -/
def jsToLower (s : String) : String :=
  ⟨s.data.map Char.toLower⟩

/-! ## Data model of the active wizard (`src/index.js`, lines 148-366) -/

/-- One pending giveaway application, as stored in `pendingGiveaways`
by the `giveawayModal` submit handler (lines 226-233). -/
structure GiveawayData where
  title : String
  description : String
  duration : String
  conditions : String
  applicantId : String
  applicantTag : String
deriving Repr, DecidableEq

/-- The `pendingGiveaways` JS `Map`, keyed by applicant id (line 151). -/
abbrev PendingStore : Type := List (String × GiveawayData)

/-- Outcomes of the external chat-platform calls made by the handler; a
`false` field means that call rejects (throws). -/
structure Gateway where
  channelFetchOk : Bool
  channelSendOk : Bool
  userFetchOk : Bool
  dmSendOk : Bool
  guildFound : Bool
  channelCreateOk : Bool
deriving Repr, DecidableEq

/-- Gateway in which every external call succeeds. -/
def gwOk : Gateway :=
  ⟨true, true, true, true, true, true⟩

/-- Gateway in which the moderator-channel `send` rejects and everything
else succeeds. -/
def gwPostFail : Gateway :=
  ⟨true, false, true, true, true, true⟩

/-- Gateway in which the applicant DM `send` rejects and everything else
succeeds. -/
def gwDmFail : Gateway :=
  ⟨true, true, true, false, true, true⟩

/-- Observable effects produced by one run of the interaction handler. -/
inductive BotAction where
  | reply (content : String) (ephemeral : Bool)
  | showModal (modalId : String)
  | channelPost (channelId : String) (fields : List (String × String))
  | updateMessage (content : String) (componentsCleared : Bool)
  | modUpdate (description : String) (footer : String) (componentsCleared : Bool)
  | dmSend (userId : String) (content : String)
  | followUp (content : String) (ephemeral : Bool)
deriving Repr, DecidableEq

/-- Result of dispatching one interaction: the store afterwards, the
actions performed before any throw, and whether an unhandled exception
escaped the handler. -/
structure StepResult where
  store : PendingStore
  actions : List BotAction
  threw : Bool
deriving Repr, DecidableEq

/-- Interaction events the active handler dispatches on
(`client.on('interactionCreate', ...)`, lines 182-366). -/
inductive Interaction where
  | slashHostGiveaway (userId userTag : String)
  | giveawayModalSubmit (userId userTag : String)
      (title description duration conditions : String)
  | button (userId : String) (customId : String)
deriving Repr, DecidableEq

/-- The identity of the user who performed the interaction
(`interaction.user.id`). -/
def Interaction.actor : Interaction → String
  | .slashHostGiveaway u _ => u
  | .giveawayModalSubmit u _ _ _ _ _ => u
  | .button u _ => u

/-- The moderator review channel id hard-coded at line 282. -/
def modChannelId : String := "1357863365116039308"

/-- `giveawayData.conditions || 'None'` (line 262). -/
def conditionsDisplay (g : GiveawayData) : String :=
  jsOr g.conditions "None"

/-- The embed the `agreeSubmission` handler posts to the moderator
channel (lines 255-265), as a list of (name, value) fields. -/
def reviewEmbedFields (g : GiveawayData) : List (String × String) :=
  [("Title", g.title),
   ("Description / Contents", g.description),
   ("Duration", g.duration),
   ("Conditions", conditionsDisplay g),
   ("Applicant", "<@" ++ g.applicantId ++ "> (" ++ g.applicantTag ++ ")")]

/-- JS `customId.split('_')[1]`. -/
def splitSecond (cid : String) : String :=
  ((cid.splitOn "_").get? 1).getD ""

/-- DM sent to an approved applicant (lines 300-303): content plus a
`hostGiveaway_` button. -/
def approvalDm : String :=
  "Your giveaway application has been **approved**! Click the button below to start customizing your giveaway."

/-- DM sent to a denied applicant (line 323). -/
def denialDm : String :=
  "Your giveaway application has been **denied**. Please contact the moderators for more information."

/-- The applicant DM attempt inside `try { fetch; send } catch` of the
approve/deny branches: no action is recorded when either call rejects,
and the exception never escapes. -/
def dmAttempt (gw : Gateway) (userId content : String) : List BotAction :=
  if gw.userFetchOk && gw.dmSendOk then [.dmSend userId content] else []

/-- One dispatch of the active `interactionCreate` handler
(lines 182-366). -/
def interactionStep (gw : Gateway) (store : PendingStore) :
    Interaction → StepResult
  | .slashHostGiveaway _ _ =>
      -- lines 184-218: build and show the giveawayModal
      ⟨store, [.showModal "giveawayModal"], false⟩
  | .giveawayModalSubmit u tag t d du c =>
      -- lines 220-246: store the submission keyed by the submitter's id
      ⟨mapSet store u ⟨t, d, du, c, u, tag⟩,
       [.reply "Your giveaway application details have been submitted for review. Please click **I Agree** to confirm and forward your application to the moderators." true],
       false⟩
  | .button u cid =>
      if cid = "agreeSubmission" then
        -- lines 250-288
        match mapGet store u with
        | none =>
            ⟨store, [.reply "No pending giveaway application found." true], false⟩
        | some g =>
            if gw.channelFetchOk then
              if gw.channelSendOk then
                ⟨mapDelete store u,
                 [.channelPost modChannelId (reviewEmbedFields g),
                  .updateMessage "Your giveaway application has been forwarded to the moderators for review." true],
                 false⟩
              else
                -- `modChannel.send` rejects: no try/catch, the await throws,
                -- `pendingGiveaways.delete` and `interaction.update` never run
                ⟨store, [], true⟩
            else
              ⟨store, [], true⟩
      else if jsStartsWith cid "approve_" then
        -- lines 290-317
        ⟨store,
         dmAttempt gw (splitSecond cid) approvalDm ++
           [.modUpdate "This giveaway application has been **approved**." "Approved" true,
            .followUp "Application approved." true],
         false⟩
      else if jsStartsWith cid "deny_" then
        -- lines 319-337
        ⟨store,
         dmAttempt gw (splitSecond cid) denialDm ++
           [.modUpdate "This giveaway application has been **denied**." "Rejected" true,
            .followUp "Application denied." true],
         false⟩
      else if jsStartsWith cid "contact_" then
        -- lines 339-359
        if gw.guildFound then
          if gw.channelCreateOk then
            ⟨store, [.reply "A private contact channel has been created." true], false⟩
          else
            ⟨store, [.reply "Failed to create a private contact channel." true], false⟩
        else
          ⟨store, [.reply "Guild not found." true], false⟩
      else if jsStartsWith cid "hostGiveaway_" then
        -- lines 360-364: placeholder branch, nothing but an error reply
        ⟨store, [.reply "Slight error, please try again" true], false⟩
      else
        ⟨store, [], false⟩

/-- Whether an action is the moderator-channel announcement post. -/
def isPost : BotAction → Bool
  | .channelPost _ _ => true
  | _ => false

/-- Whether an action is a direct message to an applicant. -/
def isDm : BotAction → Bool
  | .dmSend _ _ => true
  | _ => false

/-! ## The commented-out multi-step builder wizard (lines 388-742)

The five-stage wizard the repository text describes lives in the block
comment at the end of `src/index.js`.  We embed the parts the claims
need: the session record (`giveawayBuilders` entries), the
`basicInfoModal` submit handler (lines 435-470), and the final public
announcement embed of the `submitGiveaway` handler (lines 695-712).
A field that no stage has written yet is `none` (JS `undefined`). -/

/-- `builderSession.data`: fields accumulated across the wizard stages. -/
structure BuilderData where
  title : Option String := none
  prize : Option String := none
  winners : Option String := none
  duration : Option String := none
  membership : Option String := none
  minMessages : Option String := none
  requiredRoles : Option String := none
  customEntry : Option String := none
  embedColor : Option String := none
  thumbnailUrl : Option String := none
  bannerUrl : Option String := none
  buttonText : Option String := none
  startMessage : Option String := none
  winnerMessage : Option String := none
  entryConfirmation : Option String := none
deriving Repr, DecidableEq

/-- One `giveawayBuilders` session: `{ step: n, data: {...} }`. -/
structure BuilderSession where
  builderStep : Nat
  data : BuilderData
deriving Repr, DecidableEq

/-- The `giveawayBuilders` JS `Map`, keyed by user id (line 391). -/
abbrev BuilderStore : Type := List (String × BuilderSession)

/-- Reply produced by a builder-stage handler. -/
inductive BuilderReply where
  | errorReply (content : String)
  | preview (content : String) (fields : List (String × String)) (nextButtonId : String)
deriving Repr, DecidableEq

/-- The `basicInfoModal` submit handler (lines 435-470): requires an
existing session, then stores the four inputs verbatim (the winners
input as the raw string, with no numeric validation) and sets
`step := 2`. -/
def handleBasicInfoModal (builders : BuilderStore) (u : String)
    (titleIn prizeIn winnersIn durationIn : String) :
    BuilderStore × BuilderReply :=
  match mapGet builders u with
  | none => (builders, .errorReply "No builder session found.")
  | some s =>
      let d := { s.data with
                   title := some titleIn, prize := some prizeIn,
                   winners := some winnersIn, duration := some durationIn }
      let s' : BuilderSession := ⟨2, d⟩
      (mapSet builders u s',
       .preview "Basic Information saved. See preview below:"
         [("Title", titleIn), ("Prize", prizeIn),
          ("Winners", winnersIn), ("Duration", durationIn)]
         "toEntryRequirements")

/-- The public announcement embed assembled by the `submitGiveaway`
handler (lines 695-712), as (name, value) fields.  Values written
`x || 'None'` / `x || 'N/A'` in the source use `jsOrOpt`; `Number of
Winners` is a template literal (`jsCoe`), `Duration` is used directly
(also modelled by its JS string coercion). -/
def giveawayEmbedFields (d : BuilderData) : List (String × String) :=
  [("Number of Winners", jsCoe d.winners),
   ("Duration", jsCoe d.duration),
   ("Membership Requirement", jsOrOpt d.membership "None"),
   ("Min. Message Count", jsOrOpt d.minMessages "None"),
   ("Required Roles", jsOrOpt d.requiredRoles "None"),
   ("Additional Entry Requirements", jsOrOpt d.customEntry "None"),
   ("Start Announcement", jsOrOpt d.startMessage "N/A"),
   ("Winner Announcement", jsOrOpt d.winnerMessage "N/A"),
   ("Entry Confirmation", jsOrOpt d.entryConfirmation "N/A")]

/-! ## The `/notify` HTTP endpoint (lines 83-146) -/

/-- The JSON body of a `POST /notify` request.  A `none` field was absent
from the request (JS `undefined`). -/
structure NotifyRequest where
  discordId : Option String
  status : Option String
  details : Option String
deriving Repr, DecidableEq

/-- An HTTP response: status code and, for diagnostics, the error text. -/
structure HttpResponse where
  statusCode : Nat
  errorMsg : Option String
deriving Repr, DecidableEq

/-- JS truthiness of a possibly-absent string (`!x` is true for
`undefined` and for the empty string). -/
def jsTruthy (o : Option String) : Bool :=
  match o with
  | none => false
  | some s => !(s = "")

/-- The `discordId` shape check, `/^\d{17,19}$/` (line 94). -/
def isValidDiscordId (s : String) : Bool :=
  17 ≤ s.length && s.length ≤ 19 && s.data.all Char.isDigit

/-- The fixed status message templates of the `switch` at lines 111-121
(for the already-lowercased status). -/
def statusTemplate (statusLower : String) : String :=
  if statusLower = "submitted" then
    "Your moderator application has been **submitted** and is up for review."
  else if statusLower = "approved" then
    "ðŸŽ‰ Congratulations! Your moderator application has been **approved**. You will now move on to the interview and will be contacted within **4-5 days**."
  else
    "We regret to inform you that your moderator application didn't meet the requirements and has been **rejected**."

/-- The outgoing DM text: the template, plus the details suffix exactly
when `payload.details` is truthy (lines 122-124). -/
def notifyMessage (statusLower : String) (details : Option String) : String :=
  statusTemplate statusLower ++
    (if jsTruthy details then "\n\n**Details:** " ++ (details.getD "") else "")

/-- The `POST /notify` handler (lines 83-146) as a function of the
integration flag, the bot's readiness, the gateway outcomes and the
request.  Returns the HTTP response and the list of DM texts handed to
`user.send` (empty when validation fails or the user fetch rejects). -/
def postNotify (enabled ready : Bool) (gw : Gateway) (req : NotifyRequest) :
    HttpResponse × List String :=
  if !enabled then
    (⟨503, some "Discord integration is currently disabled."⟩, [])
  else if !(jsTruthy req.discordId && jsTruthy req.status) then
    (⟨400, some "Missing discordId or status in request body."⟩, [])
  else if !isValidDiscordId (req.discordId.getD "") then
    (⟨400, some "Invalid Discord ID format."⟩, [])
  else if !ready then
    (⟨503, some "Discord bot is not connected."⟩, [])
  else
    let statusLower := jsToLower (req.status.getD "")
    if !(statusLower = "submitted" || statusLower = "approved" || statusLower = "rejected") then
      (⟨400, some "Invalid status provided."⟩, [])
    else
      let message := notifyMessage statusLower req.details
      if !gw.userFetchOk then
        (⟨404, some "Discord user not found or bot cannot access this user."⟩, [])
      else if gw.dmSendOk then
        (⟨200, none⟩, [message])
      else
        (⟨500, some "Failed to send notification"⟩, [message])

/-- Modelled from the spec: the notification relay is specified to
append `detailText` to the template message exactly when `detailText`
is present in the request (the spec sentence reads "appending
`detailText` when present"); used to compare with the code's
truthiness-guarded `notifyMessage`. -/
def relaySpecMessage (statusLower : String) (details : Option String) : String :=
  statusTemplate statusLower ++
    (match details with
     | none => ""
     | some t => "\n\n**Details:** " ++ t)

/-! ## Concrete data used by witnesses and counterexamples -/

/-- A sample completed giveaway application (entry conditions left empty). -/
def exampleGiveaway : GiveawayData :=
  ⟨"Holiday Drop", "Gift Card", "1d", "", "100000000000000001", "user1#0001"⟩

/-- A second sample application, owned by a different user. -/
def exampleGiveaway2 : GiveawayData :=
  ⟨"Book Bundle", "Three paperbacks", "2h", "member", "100000000000000002", "user2#0002"⟩

/-- A sample one-entry session store. -/
def exampleStore : PendingStore :=
  [("100000000000000001", exampleGiveaway)]

/-- A store with sessions for two different users. -/
def twoUserStore : PendingStore :=
  [("100000000000000001", exampleGiveaway),
   ("100000000000000002", exampleGiveaway2)]

/-- Builder data after all five commented-wizard stages with every
optional field submitted empty (the modal returns the empty string for
an optional input left blank). -/
def emptyMsgBuilderData : BuilderData :=
  { title := some "Holiday Drop", prize := some "Gift Card",
    winners := some "3", duration := some "1d",
    membership := some "7d", minMessages := some "10",
    requiredRoles := some "", customEntry := some "",
    embedColor := some "#00BFFF", thumbnailUrl := some "", bannerUrl := some "",
    buttonText := some "", startMessage := some "", winnerMessage := some "",
    entryConfirmation := some "" }

/-- A `/notify` request whose `payload.details` is present but is the
empty string. -/
def emptyDetailsReq : NotifyRequest :=
  ⟨some "100000000000000001", some "approved", some ""⟩

/-- The store after one owner starts the wizard twice: a first modal
submission superseded by a second one.  The confirm button attached to
the first, superseded submission is still live in the owner's DM. -/
def supersededStore : PendingStore :=
  (interactionStep gwOk
    (interactionStep gwOk []
      (.giveawayModalSubmit "100000000000000001" "user1#0001"
        "First Title" "First prize" "1h" "")).store
    (.giveawayModalSubmit "100000000000000001" "user1#0001"
      "Second Title" "Second prize" "2h" "")).store

/-! ## Store lemmas -/

theorem mapGet_mapSet_self {α : Type} (m : List (String × α)) (k : String) (v : α) :
    mapGet (mapSet m k v) k = some v := by
  induction m with
  | nil => simp [mapSet, mapGet]
  | cons p rest ih =>
      obtain ⟨k', v'⟩ := p
      by_cases h : k' = k <;> simp [mapSet, mapGet, h, ih]

theorem mapGet_mapSet_ne {α : Type} (m : List (String × α)) {k j : String} (v : α)
    (h : j ≠ k) : mapGet (mapSet m k v) j = mapGet m j := by
  have hkj : ¬ k = j := fun e => h e.symm
  induction m with
  | nil => simp [mapSet, mapGet, hkj]
  | cons p rest ih =>
      obtain ⟨k', v'⟩ := p
      by_cases hk : k' = k
      · rw [hk]
        simp [mapSet, mapGet, hkj]
      · simp [mapSet, mapGet, hk, ih]

theorem mapGet_mapDelete_self {α : Type} (m : List (String × α)) (k : String) :
    mapGet (mapDelete m k) k = none := by
  induction m with
  | nil => simp [mapDelete, mapGet]
  | cons p rest ih =>
      obtain ⟨k', v'⟩ := p
      by_cases h : k' = k <;> simp [mapDelete, mapGet, h, ih]

theorem mapGet_mapDelete_ne {α : Type} (m : List (String × α)) {k j : String}
    (h : j ≠ k) : mapGet (mapDelete m k) j = mapGet m j := by
  have hkj : ¬ k = j := fun e => h e.symm
  induction m with
  | nil => simp [mapDelete, mapGet]
  | cons p rest ih =>
      obtain ⟨k', v'⟩ := p
      by_cases hk : k' = k
      · rw [hk]
        simp [mapDelete, mapGet, hkj, ih]
      · simp [mapDelete, mapGet, hk, ih]

theorem countKey_nil {α : Type} (k : String) :
    countKey ([] : List (String × α)) k = 0 := rfl

theorem countKey_cons {α : Type} (k' : String) (v' : α) (m : List (String × α))
    (k : String) :
    countKey ((k', v') :: m) k = (if k' = k then 1 else 0) + countKey m k := by
  by_cases h : k' = k
  · simp [countKey, List.countP_cons, h]
    omega
  · simp [countKey, List.countP_cons, h]

theorem countKey_mapSet_self {α : Type} (m : List (String × α)) (k : String) (v : α)
    (h : countKey m k ≤ 1) : countKey (mapSet m k v) k = 1 := by
  induction m with
  | nil => simp [mapSet, countKey_cons, countKey_nil]
  | cons p rest ih =>
      obtain ⟨k', v'⟩ := p
      rw [countKey_cons] at h
      by_cases hk : k' = k
      · rw [if_pos hk] at h
        have h0 : countKey rest k = 0 := by omega
        simp [mapSet, if_pos hk, countKey_cons, h0]
      · rw [if_neg hk] at h
        simp only [mapSet, if_neg hk]
        rw [countKey_cons, if_neg hk, ih (by omega)]

theorem countKey_mapSet_ne {α : Type} (m : List (String × α)) {k j : String} (v : α)
    (h : j ≠ k) : countKey (mapSet m k v) j = countKey m j := by
  have hkj : ¬ k = j := fun e => h e.symm
  induction m with
  | nil => simp [mapSet, countKey_cons, countKey_nil, hkj]
  | cons p rest ih =>
      obtain ⟨k', v'⟩ := p
      by_cases hk : k' = k
      · rw [hk]
        simp [mapSet, countKey_cons, hkj]
      · simp [mapSet, if_neg hk, countKey_cons, ih]

theorem countKey_mapDelete_le {α : Type} (m : List (String × α)) (k j : String) :
    countKey (mapDelete m k) j ≤ countKey m j := by
  induction m with
  | nil => simp [mapDelete]
  | cons p rest ih =>
      obtain ⟨k', v'⟩ := p
      by_cases hk : k' = k
      · simp only [mapDelete, if_pos hk, countKey_cons]
        omega
      · simp only [mapDelete, if_neg hk, countKey_cons]
        omega

theorem mapGet_mapDelete_of_none {α : Type} (m : List (String × α)) {k : String}
    (j : String) (h : mapGet m k = none) : mapGet (mapDelete m j) k = none := by
  by_cases hj : k = j
  · subst hj; exact mapGet_mapDelete_self m k
  · rw [mapGet_mapDelete_ne m hj]; exact h

theorem countKey_le_length {α : Type} (m : List (String × α)) (k : String) :
    countKey m k ≤ m.length :=
  List.countP_le_length _

/-! ## JS-truthiness lemmas -/

theorem jsOr_ne_empty (s d : String) (hd : ¬ d = "") : ¬ jsOr s d = "" := by
  by_cases hs : s = "" <;> simp [jsOr, hs, hd]

theorem jsOrOpt_ne_empty (o : Option String) (d : String) (hd : ¬ d = "") :
    ¬ jsOrOpt o d = "" := by
  cases o with
  | none => simpa [jsOrOpt] using hd
  | some s => by_cases hs : s = "" <;> simp [jsOrOpt, hs, hd]

theorem jsOrOpt_falsy (o : Option String) (d : String)
    (h : jsTruthy o = false) : jsOrOpt o d = d := by
  cases o with
  | none => rfl
  | some s =>
      have hs : s = "" := by simpa [jsTruthy] using h
      simp [jsOrOpt, hs]

/-! ## String lemmas for the custom-id dispatch -/

theorem strDataAppend (a b : String) : (a ++ b).data = a.data ++ b.data := rfl

theorem isPrefixOf_append_self (l t : List Char) : l.isPrefixOf (l ++ t) = true := by
  induction l with
  | nil => simp [List.isPrefixOf]
  | cons a as ih => simp [List.isPrefixOf, ih]

theorem isPrefixOf_head_ne {a b : Char} (as bs : List Char) (h : (a == b) = false) :
    List.isPrefixOf (a :: as) (b :: bs) = false := by
  simp [List.isPrefixOf, h]

theorem jsStartsWith_append_self (p s : String) : jsStartsWith (p ++ s) p = true := by
  rw [jsStartsWith, strDataAppend]
  exact isPrefixOf_append_self _ _

/-- A string with prefix `p` can only equal `q` if `p` is a prefix of `q`. -/
theorem append_ne_of_not_prefix (p q s : String)
    (h : p.data.isPrefixOf q.data = false) : p ++ s ≠ q := by
  intro e
  have h2 : p.data.isPrefixOf q.data = true := by
    rw [← e, strDataAppend]
    exact isPrefixOf_append_self _ _
  rw [h] at h2
  exact Bool.false_ne_true h2

theorem jsStartsWith_host_approve (s : String) :
    jsStartsWith ("hostGiveaway_" ++ s) "approve_" = false := by
  have e : ("hostGiveaway_" ++ s).data = 'h' :: ("ostGiveaway_".data ++ s.data) := by
    rw [strDataAppend]; rfl
  rw [jsStartsWith, e]
  exact isPrefixOf_head_ne _ _ (by decide)

theorem jsStartsWith_host_deny (s : String) :
    jsStartsWith ("hostGiveaway_" ++ s) "deny_" = false := by
  have e : ("hostGiveaway_" ++ s).data = 'h' :: ("ostGiveaway_".data ++ s.data) := by
    rw [strDataAppend]; rfl
  rw [jsStartsWith, e]
  exact isPrefixOf_head_ne _ _ (by decide)

theorem jsStartsWith_host_contact (s : String) :
    jsStartsWith ("hostGiveaway_" ++ s) "contact_" = false := by
  have e : ("hostGiveaway_" ++ s).data = 'h' :: ("ostGiveaway_".data ++ s.data) := by
    rw [strDataAppend]; rfl
  rw [jsStartsWith, e]
  exact isPrefixOf_head_ne _ _ (by decide)

theorem jsStartsWith_deny_approve (s : String) :
    jsStartsWith ("deny_" ++ s) "approve_" = false := by
  have e : ("deny_" ++ s).data = 'd' :: ("eny_".data ++ s.data) := by
    rw [strDataAppend]; rfl
  rw [jsStartsWith, e]
  exact isPrefixOf_head_ne _ _ (by decide)

/-! ## Dispatch lemmas for the active handler -/

/-- Dispatch of an `approve_`-prefixed button reaches the approve
branch. -/
theorem interactionStep_approve_eq (gw : Gateway) (store : PendingStore)
    (u s : String) :
    interactionStep gw store (.button u ("approve_" ++ s))
      = ⟨store,
         dmAttempt gw (splitSecond ("approve_" ++ s)) approvalDm ++
           [.modUpdate "This giveaway application has been **approved**." "Approved" true,
            .followUp "Application approved." true],
         false⟩ := by
  have h1 : ("approve_" ++ s) ≠ "agreeSubmission" :=
    append_ne_of_not_prefix _ _ _ (by decide)
  simp only [interactionStep, if_neg h1, if_pos (jsStartsWith_append_self "approve_" s)]

/-- Dispatch of a `deny_`-prefixed button reaches the deny branch. -/
theorem interactionStep_deny_eq (gw : Gateway) (store : PendingStore)
    (u s : String) :
    interactionStep gw store (.button u ("deny_" ++ s))
      = ⟨store,
         dmAttempt gw (splitSecond ("deny_" ++ s)) denialDm ++
           [.modUpdate "This giveaway application has been **denied**." "Rejected" true,
            .followUp "Application denied." true],
         false⟩ := by
  have h1 : ("deny_" ++ s) ≠ "agreeSubmission" :=
    append_ne_of_not_prefix _ _ _ (by decide)
  have h2 : ¬ (jsStartsWith ("deny_" ++ s) "approve_" = true) := by
    simp [jsStartsWith_deny_approve s]
  simp only [interactionStep, if_neg h1, if_neg h2,
    if_pos (jsStartsWith_append_self "deny_" s)]

/-- Whatever button is clicked, the store afterwards is either untouched
or the clicker's own entry was deleted. -/
theorem interactionStep_button_store (gw : Gateway) (store : PendingStore)
    (u cid : String) :
    (interactionStep gw store (.button u cid)).store = store ∨
    (interactionStep gw store (.button u cid)).store = mapDelete store u := by
  simp only [interactionStep]
  by_cases h1 : cid = "agreeSubmission"
  · rw [if_pos h1]
    cases hm : mapGet store u with
    | none => exact Or.inl rfl
    | some g =>
        dsimp only
        by_cases h2 : gw.channelFetchOk = true
        · by_cases h3 : gw.channelSendOk = true
          · rw [if_pos h2, if_pos h3]; exact Or.inr rfl
          · rw [if_pos h2, if_neg h3]; exact Or.inl rfl
        · rw [if_neg h2]; exact Or.inl rfl
  · rw [if_neg h1]
    refine Or.inl ?_
    repeat' split
    all_goals rfl

/-! ## Claim theorems -/

/-- C1: for every owner, at most one session exists in `pendingGiveaways`
at any time: every interaction preserves "at most one entry per key", a
`giveawayModal` submission by an owner who already has a session replaces
it (exactly one entry under that key afterwards, holding the new data),
and no interaction ever creates an entry under a key other than the
acting user's own id. -/
theorem claim_session_unique_per_owner (gw : Gateway) (store : PendingStore)
    (i : Interaction) (h : ∀ k, countKey store k ≤ 1) :
    (∀ k, countKey (interactionStep gw store i).store k ≤ 1) ∧
    (∀ k, mapGet store k = none →
        mapGet (interactionStep gw store i).store k ≠ none → k = i.actor) ∧
    (∀ u tag t d du c, i = Interaction.giveawayModalSubmit u tag t d du c →
        mapGet (interactionStep gw store i).store u = some ⟨t, d, du, c, u, tag⟩ ∧
        countKey (interactionStep gw store i).store u = 1) := by
  cases i with
  | slashHostGiveaway u tag =>
      refine ⟨fun k => h k, fun k hk hne => absurd hk hne, ?_⟩
      intro u' tag' t d du c heq
      exact Interaction.noConfusion heq
  | giveawayModalSubmit u tag t d du c =>
      refine ⟨?_, ?_, ?_⟩
      · intro k
        by_cases hk : k = u
        · subst hk
          simp only [interactionStep]
          rw [countKey_mapSet_self store k _ (h k)]
        · simp only [interactionStep]
          rw [countKey_mapSet_ne store _ hk]
          exact h k
      · intro k hk hne
        by_cases hku : k = u
        · exact hku
        · exfalso
          apply hne
          simp only [interactionStep]
          rw [mapGet_mapSet_ne store _ hku]
          exact hk
      · intro u' tag' t' d' du' c' heq
        injection heq with e1 e2 e3 e4 e5 e6
        subst e1; subst e2; subst e3; subst e4; subst e5; subst e6
        simp only [interactionStep]
        exact ⟨mapGet_mapSet_self store u _, countKey_mapSet_self store u _ (h u)⟩
  | button u cid =>
      refine ⟨?_, ?_, ?_⟩
      · intro k
        rcases interactionStep_button_store gw store u cid with he | he
        · rw [he]; exact h k
        · rw [he]; exact le_trans (countKey_mapDelete_le store u k) (h k)
      · intro k hk hne
        rcases interactionStep_button_store gw store u cid with he | he
        · rw [he] at hne; exact absurd hk hne
        · rw [he] at hne
          exact absurd (mapGet_mapDelete_of_none store u hk) hne
      · intro u' tag' t' d' du' c' heq
        exact Interaction.noConfusion heq

/-- Witness for C1 at a concrete store and a concrete modal submission. -/
theorem claim_session_unique_per_owner_witness :
    (∀ k, countKey exampleStore k ≤ 1) ∧
    ((∀ k, countKey (interactionStep gwOk exampleStore
        (.giveawayModalSubmit "100000000000000001" "user1#0001"
          "Book Bundle" "Three paperbacks" "2h" "")).store k ≤ 1) ∧
     (∀ k, mapGet exampleStore k = none →
        mapGet (interactionStep gwOk exampleStore
          (.giveawayModalSubmit "100000000000000001" "user1#0001"
            "Book Bundle" "Three paperbacks" "2h" "")).store k ≠ none →
        k = (Interaction.giveawayModalSubmit "100000000000000001" "user1#0001"
          "Book Bundle" "Three paperbacks" "2h" "").actor) ∧
     (∀ u tag t d du c,
        (Interaction.giveawayModalSubmit "100000000000000001" "user1#0001"
          "Book Bundle" "Three paperbacks" "2h" "" : Interaction)
          = Interaction.giveawayModalSubmit u tag t d du c →
        mapGet (interactionStep gwOk exampleStore
          (.giveawayModalSubmit "100000000000000001" "user1#0001"
            "Book Bundle" "Three paperbacks" "2h" "")).store u
            = some ⟨t, d, du, c, u, tag⟩ ∧
        countKey (interactionStep gwOk exampleStore
          (.giveawayModalSubmit "100000000000000001" "user1#0001"
            "Book Bundle" "Three paperbacks" "2h" "")).store u = 1)) :=
  ⟨fun k => countKey_le_length exampleStore k,
   claim_session_unique_per_owner gwOk exampleStore _
     (fun k => countKey_le_length exampleStore k)⟩

/-- C2 counterexample: with a pending session for the owner, a confirm
(`agreeSubmission`) during which `modChannel.send` rejects leaves the
session IN the store (it is not removed), performs no user-visible
action (so no failure report reaches the owner), and escapes as an
unhandled exception — the claim says the session would be gone. -/
theorem claim_confirm_removes_on_failure_cex :
    mapGet (interactionStep gwPostFail exampleStore
        (.button "100000000000000001" "agreeSubmission")).store
        "100000000000000001" = some exampleGiveaway ∧
    (interactionStep gwPostFail exampleStore
        (.button "100000000000000001" "agreeSubmission")).store = exampleStore ∧
    (interactionStep gwPostFail exampleStore
        (.button "100000000000000001" "agreeSubmission")).actions = [] ∧
    (interactionStep gwPostFail exampleStore
        (.button "100000000000000001" "agreeSubmission")).threw = true := by
  refine ⟨?_, ?_, ?_, ?_⟩ <;> rfl

/-- C2 amended: if the post-to-channel call fails during confirm, the
handler throws before `pendingGiveaways.delete` runs: the owner's
session remains in the store and no report reaches the owner; the
session is removed only when the post succeeds. -/
theorem claim_confirm_failure_keeps_session (store : PendingStore)
    (u : String) (g : GiveawayData) (h : mapGet store u = some g) :
    ((interactionStep gwPostFail store (.button u "agreeSubmission")).store = store ∧
     (interactionStep gwPostFail store (.button u "agreeSubmission")).actions = [] ∧
     (interactionStep gwPostFail store (.button u "agreeSubmission")).threw = true) ∧
    ((interactionStep gwOk store (.button u "agreeSubmission")).store = mapDelete store u ∧
     mapGet (interactionStep gwOk store (.button u "agreeSubmission")).store u = none ∧
     (interactionStep gwOk store (.button u "agreeSubmission")).threw = false) := by
  constructor
  · simp [interactionStep, h, gwPostFail]
  · simp [interactionStep, h, gwOk, mapGet_mapDelete_self]

/-- Witness for the amended C2 at a concrete store. -/
theorem claim_confirm_failure_keeps_session_witness :
    mapGet exampleStore "100000000000000001" = some exampleGiveaway ∧
    (((interactionStep gwPostFail exampleStore
        (.button "100000000000000001" "agreeSubmission")).store = exampleStore ∧
      (interactionStep gwPostFail exampleStore
        (.button "100000000000000001" "agreeSubmission")).actions = [] ∧
      (interactionStep gwPostFail exampleStore
        (.button "100000000000000001" "agreeSubmission")).threw = true) ∧
     ((interactionStep gwOk exampleStore
        (.button "100000000000000001" "agreeSubmission")).store
          = mapDelete exampleStore "100000000000000001" ∧
      mapGet (interactionStep gwOk exampleStore
        (.button "100000000000000001" "agreeSubmission")).store
          "100000000000000001" = none ∧
      (interactionStep gwOk exampleStore
        (.button "100000000000000001" "agreeSubmission")).threw = false)) :=
  ⟨rfl, claim_confirm_failure_keeps_session exampleStore
    "100000000000000001" exampleGiveaway rfl⟩

/-- C3: for every owner with a (complete) pending session, a successful
confirm produces exactly one announcement post (the review embed built
from the session's fields) and removes the owner's session; a second
confirm afterwards fails with the no-pending-application reply (the
code's `NotFound` report) and posts nothing further. -/
theorem claim_confirm_exactly_once (store : PendingStore) (u : String)
    (g : GiveawayData) (h : mapGet store u = some g) :
    ((interactionStep gwOk store (.button u "agreeSubmission")).actions.filter isPost)
        = [.channelPost modChannelId (reviewEmbedFields g)] ∧
    mapGet (interactionStep gwOk store (.button u "agreeSubmission")).store u = none ∧
    (interactionStep gwOk
        (interactionStep gwOk store (.button u "agreeSubmission")).store
        (.button u "agreeSubmission")).actions
      = [.reply "No pending giveaway application found." true] ∧
    ((interactionStep gwOk
        (interactionStep gwOk store (.button u "agreeSubmission")).store
        (.button u "agreeSubmission")).actions.filter isPost) = [] ∧
    (interactionStep gwOk
        (interactionStep gwOk store (.button u "agreeSubmission")).store
        (.button u "agreeSubmission")).store
      = (interactionStep gwOk store (.button u "agreeSubmission")).store := by
  have e1 : interactionStep gwOk store (.button u "agreeSubmission")
      = ⟨mapDelete store u,
         [.channelPost modChannelId (reviewEmbedFields g),
          .updateMessage "Your giveaway application has been forwarded to the moderators for review." true],
         false⟩ := by
    simp [interactionStep, h, gwOk]
  have e2 : mapGet (mapDelete store u) u = none := mapGet_mapDelete_self store u
  have e3 : interactionStep gwOk (mapDelete store u) (.button u "agreeSubmission")
      = ⟨mapDelete store u,
         [.reply "No pending giveaway application found." true], false⟩ := by
    simp [interactionStep, e2]
  rw [e1]
  refine ⟨?_, e2, ?_, ?_, ?_⟩
  · simp [isPost]
  · rw [e3]
  · rw [e3]
    simp [isPost]
  · rw [e3]

/-- Witness for C3 at a concrete store. -/
theorem claim_confirm_exactly_once_witness :
    mapGet exampleStore "100000000000000001" = some exampleGiveaway ∧
    (((interactionStep gwOk exampleStore
        (.button "100000000000000001" "agreeSubmission")).actions.filter isPost)
        = [.channelPost modChannelId (reviewEmbedFields exampleGiveaway)] ∧
     mapGet (interactionStep gwOk exampleStore
        (.button "100000000000000001" "agreeSubmission")).store
        "100000000000000001" = none ∧
     (interactionStep gwOk
        (interactionStep gwOk exampleStore
          (.button "100000000000000001" "agreeSubmission")).store
        (.button "100000000000000001" "agreeSubmission")).actions
      = [.reply "No pending giveaway application found." true] ∧
     ((interactionStep gwOk
        (interactionStep gwOk exampleStore
          (.button "100000000000000001" "agreeSubmission")).store
        (.button "100000000000000001" "agreeSubmission")).actions.filter isPost) = [] ∧
     (interactionStep gwOk
        (interactionStep gwOk exampleStore
          (.button "100000000000000001" "agreeSubmission")).store
        (.button "100000000000000001" "agreeSubmission")).store
      = (interactionStep gwOk exampleStore
          (.button "100000000000000001" "agreeSubmission")).store) :=
  ⟨rfl, claim_confirm_exactly_once exampleStore
    "100000000000000001" exampleGiveaway rfl⟩

/-- C5 counterexample: a stale confirm button from a superseded session
is indistinguishable from a fresh one (its custom id is the constant
`agreeSubmission`), so clicking it is NOT rejected as stale: it is
processed against the owner's current session — it posts an announcement
and mutates the store — where the claim requires a `StaleInteraction`
failure with the store left completely unchanged. -/
theorem claim_stale_interaction_cex :
    mapGet supersededStore "100000000000000001"
      = some ⟨"Second Title", "Second prize", "2h", "",
              "100000000000000001", "user1#0001"⟩ ∧
    (interactionStep gwOk supersededStore
        (.button "100000000000000001" "agreeSubmission")).store
      ≠ supersededStore ∧
    ((interactionStep gwOk supersededStore
        (.button "100000000000000001" "agreeSubmission")).actions.filter isPost).length
      = 1 := by
  refine ⟨rfl, ?_, rfl⟩
  decide

/-- C5 amended: an event arriving when the sender has no session at all
does fail safely — the handler replies with the no-pending-application
notice and the store (hence every session's fields) is completely
unchanged; but an event addressed to a superseded session is not
detected (no `StaleInteraction` exists in the code) and is processed
against the current session. -/
theorem claim_stale_no_session_safe (gw : Gateway) (store : PendingStore)
    (u : String) (h : mapGet store u = none) :
    interactionStep gw store (.button u "agreeSubmission")
      = ⟨store, [.reply "No pending giveaway application found." true], false⟩ := by
  simp [interactionStep, h]

/-- Witness for the amended C5 at the empty store. -/
theorem claim_stale_no_session_safe_witness :
    mapGet ([] : PendingStore) "100000000000000001" = none ∧
    interactionStep gwOk ([] : PendingStore)
        (.button "100000000000000001" "agreeSubmission")
      = ⟨[], [.reply "No pending giveaway application found." true], false⟩ :=
  ⟨rfl, claim_stale_no_session_safe gwOk [] "100000000000000001" rfl⟩

/-- C6 counterexample: an `agreeSubmission` click by `U2` while `U1`
owns a session does not fail with `Forbidden` (no such error exists in
the code): it succeeds, posting and removing `U2`'s own session — though
`U1`'s session is indeed untouched. -/
theorem claim_foreign_event_forbidden_cex :
    ((interactionStep gwOk twoUserStore
        (.button "100000000000000002" "agreeSubmission")).actions.filter isPost).length
      = 1 ∧
    (interactionStep gwOk twoUserStore
        (.button "100000000000000002" "agreeSubmission")).threw = false ∧
    mapGet (interactionStep gwOk twoUserStore
        (.button "100000000000000002" "agreeSubmission")).store
        "100000000000000001" = some exampleGiveaway ∧
    mapGet (interactionStep gwOk twoUserStore
        (.button "100000000000000002" "agreeSubmission")).store
        "100000000000000002" = none := by
  refine ⟨rfl, rfl, ?_, ?_⟩ <;> decide

/-- C6 amended: events are never addressed to another user's session —
every handler operates on the acting user's own key — so for any
interaction whose actor is not `U1`, `U1`'s session is unchanged
afterwards; there is no `Forbidden` error: a foreign user's event is
simply processed against that user's own (possibly absent) session. -/
theorem claim_foreign_event_frame (gw : Gateway) (store : PendingStore)
    (i : Interaction) (u1 : String) (hne : i.actor ≠ u1) :
    mapGet (interactionStep gw store i).store u1 = mapGet store u1 := by
  cases i with
  | slashHostGiveaway u tag => rfl
  | giveawayModalSubmit u tag t d du c =>
      exact mapGet_mapSet_ne store _ (Ne.symm hne)
  | button u cid =>
      rcases interactionStep_button_store gw store u cid with he | he
      · rw [he]
      · rw [he]
        exact mapGet_mapDelete_ne store (Ne.symm hne)

/-- Witness for the amended C6: `U2` confirms their own session; `U1`'s
session is untouched. -/
theorem claim_foreign_event_frame_witness :
    (Interaction.button "100000000000000002" "agreeSubmission").actor
        ≠ "100000000000000001" ∧
    mapGet (interactionStep gwOk twoUserStore
        (.button "100000000000000002" "agreeSubmission")).store "100000000000000001"
      = mapGet twoUserStore "100000000000000001" :=
  ⟨by decide,
   claim_foreign_event_frame gwOk twoUserStore
     (.button "100000000000000002" "agreeSubmission") "100000000000000001" (by decide)⟩

/-- C9: in the executed code, every click of a `hostGiveaway_`-prefixed
button only yields the ephemeral error reply `Slight error, please try
again`: no builder session is created (the store is untouched), no modal
is shown, and nothing throws — the multi-step wizard start is
unreachable in the active code path. -/
theorem claim_host_button_placeholder (gw : Gateway) (store : PendingStore)
    (u s : String) :
    interactionStep gw store (.button u ("hostGiveaway_" ++ s))
      = ⟨store, [.reply "Slight error, please try again" true], false⟩ := by
  have h1 : ("hostGiveaway_" ++ s) ≠ "agreeSubmission" :=
    append_ne_of_not_prefix _ _ _ (by decide)
  have h2 : ¬ (jsStartsWith ("hostGiveaway_" ++ s) "approve_" = true) := by
    simp [jsStartsWith_host_approve s]
  have h3 : ¬ (jsStartsWith ("hostGiveaway_" ++ s) "deny_" = true) := by
    simp [jsStartsWith_host_deny s]
  have h4 : ¬ (jsStartsWith ("hostGiveaway_" ++ s) "contact_" = true) := by
    simp [jsStartsWith_host_contact s]
  simp only [interactionStep, if_neg h1, if_neg h2, if_neg h3, if_neg h4,
    if_pos (jsStartsWith_append_self "hostGiveaway_" s)]

/-- C10: for every `approve_` or `deny_` moderator click, a failing
applicant DM (user fetch or send rejecting) is caught: whatever the
gateway outcomes, nothing throws, the store is untouched, and the
non-DM actions are exactly the moderator-message update to its
approved/denied form with all components removed plus the follow-up —
the recorded decision does not depend on DM delivery. -/
theorem claim_mod_decision_independent_of_dm (gw : Gateway)
    (store : PendingStore) (u s : String) :
    ((interactionStep gw store (.button u ("approve_" ++ s))).store = store ∧
     (interactionStep gw store (.button u ("approve_" ++ s))).threw = false ∧
     (interactionStep gw store (.button u ("approve_" ++ s))).actions.filter
         (fun a => !isDm a)
       = [.modUpdate "This giveaway application has been **approved**." "Approved" true,
          .followUp "Application approved." true]) ∧
    ((interactionStep gw store (.button u ("deny_" ++ s))).store = store ∧
     (interactionStep gw store (.button u ("deny_" ++ s))).threw = false ∧
     (interactionStep gw store (.button u ("deny_" ++ s))).actions.filter
         (fun a => !isDm a)
       = [.modUpdate "This giveaway application has been **denied**." "Rejected" true,
          .followUp "Application denied." true]) := by
  rw [interactionStep_approve_eq, interactionStep_deny_eq]
  refine ⟨⟨rfl, rfl, ?_⟩, rfl, rfl, ?_⟩ <;>
    · rw [List.filter_append]
      by_cases hc : (gw.userFetchOk && gw.dmSendOk) = true
      · simp [dmAttempt, hc, isDm]
      · simp [dmAttempt, hc, isDm]

/-- C4 (the code evaluated at the failing input): the `basicInfoModal`
submit handler performs no validation of the winners input — it stores
the raw string and advances the session.  The non-numeric input `abc`
advances step 1 to step 2 with `winners = "abc"` (no `ValidationError`,
the stage is not left unchanged), and the input `5` is stored as the
string `"5"`, not as the integer 5. -/
theorem claim_winners_validation_missing :
    handleBasicInfoModal [("100000000000000001", ⟨1, {}⟩)] "100000000000000001"
        "Holiday Drop" "Gift Card" "abc" "1d"
      = ([("100000000000000001",
           ⟨2, { title := some "Holiday Drop", prize := some "Gift Card",
                 winners := some "abc", duration := some "1d" }⟩)],
         .preview "Basic Information saved. See preview below:"
           [("Title", "Holiday Drop"), ("Prize", "Gift Card"),
            ("Winners", "abc"), ("Duration", "1d")]
           "toEntryRequirements") ∧
    handleBasicInfoModal [("100000000000000001", ⟨1, {}⟩)] "100000000000000001"
        "Holiday Drop" "Gift Card" "5" "1d"
      = ([("100000000000000001",
           ⟨2, { title := some "Holiday Drop", prize := some "Gift Card",
                 winners := some "5", duration := some "1d" }⟩)],
         .preview "Basic Information saved. See preview below:"
           [("Title", "Holiday Drop"), ("Prize", "Gift Card"),
            ("Winners", "5"), ("Duration", "1d")]
           "toEntryRequirements") := by
  exact ⟨rfl, rfl⟩

/-- C7 counterexample: a start-announcement message left empty renders
in the final assembled announcement as the sentinel `N/A`, which is
neither `None` nor `Default` as the claim requires. -/
theorem claim_optional_sentinel_cex :
    emptyMsgBuilderData.startMessage = some "" ∧
    ("Start Announcement", "N/A") ∈ giveawayEmbedFields emptyMsgBuilderData ∧
    ¬ (("N/A" : String) = "None" ∨ ("N/A" : String) = "Default") := by
  refine ⟨rfl, ?_, by decide⟩
  decide

/-- C7 amended: every optional field left empty renders in the
assembled announcements as a fixed nonempty sentinel — `None` for the
entry-conditions field of the review embed and for the requirement
fields of the final public embed, `N/A` for its message-template
fields — never as an empty value. -/
theorem claim_optional_sentinel_amended (g : GiveawayData) (d : BuilderData) :
    (("Conditions", conditionsDisplay g) ∈ reviewEmbedFields g ∧
     ¬ conditionsDisplay g = "" ∧
     (g.conditions = "" → conditionsDisplay g = "None")) ∧
    (("Required Roles", jsOrOpt d.requiredRoles "None") ∈ giveawayEmbedFields d ∧
     ¬ jsOrOpt d.requiredRoles "None" = "" ∧
     (jsTruthy d.requiredRoles = false → jsOrOpt d.requiredRoles "None" = "None")) ∧
    (("Additional Entry Requirements", jsOrOpt d.customEntry "None")
        ∈ giveawayEmbedFields d ∧
     ¬ jsOrOpt d.customEntry "None" = "" ∧
     (jsTruthy d.customEntry = false → jsOrOpt d.customEntry "None" = "None")) ∧
    (("Start Announcement", jsOrOpt d.startMessage "N/A") ∈ giveawayEmbedFields d ∧
     ¬ jsOrOpt d.startMessage "N/A" = "" ∧
     (jsTruthy d.startMessage = false → jsOrOpt d.startMessage "N/A" = "N/A")) ∧
    (("Winner Announcement", jsOrOpt d.winnerMessage "N/A") ∈ giveawayEmbedFields d ∧
     ¬ jsOrOpt d.winnerMessage "N/A" = "" ∧
     (jsTruthy d.winnerMessage = false → jsOrOpt d.winnerMessage "N/A" = "N/A")) ∧
    (("Entry Confirmation", jsOrOpt d.entryConfirmation "N/A")
        ∈ giveawayEmbedFields d ∧
     ¬ jsOrOpt d.entryConfirmation "N/A" = "" ∧
     (jsTruthy d.entryConfirmation = false →
        jsOrOpt d.entryConfirmation "N/A" = "N/A")) := by
  refine ⟨⟨?_, ?_, ?_⟩, ⟨?_, ?_, ?_⟩, ⟨?_, ?_, ?_⟩, ⟨?_, ?_, ?_⟩, ⟨?_, ?_, ?_⟩,
    ?_, ?_, ?_⟩
  · simp [reviewEmbedFields]
  · exact jsOr_ne_empty g.conditions "None" (by decide)
  · intro h; rw [conditionsDisplay, h]; rfl
  · simp [giveawayEmbedFields]
  · exact jsOrOpt_ne_empty d.requiredRoles "None" (by decide)
  · exact jsOrOpt_falsy d.requiredRoles "None"
  · simp [giveawayEmbedFields]
  · exact jsOrOpt_ne_empty d.customEntry "None" (by decide)
  · exact jsOrOpt_falsy d.customEntry "None"
  · simp [giveawayEmbedFields]
  · exact jsOrOpt_ne_empty d.startMessage "N/A" (by decide)
  · exact jsOrOpt_falsy d.startMessage "N/A"
  · simp [giveawayEmbedFields]
  · exact jsOrOpt_ne_empty d.winnerMessage "N/A" (by decide)
  · exact jsOrOpt_falsy d.winnerMessage "N/A"
  · simp [giveawayEmbedFields]
  · exact jsOrOpt_ne_empty d.entryConfirmation "N/A" (by decide)
  · exact jsOrOpt_falsy d.entryConfirmation "N/A"

/-- C8 counterexample: a request whose `detailText` is present but is
the empty string passes validation and is sent — yet the delivered
message is the bare template: the details suffix is NOT appended
although `detailText` is present (the code guards on JS truthiness,
`if (payload.details)`, not on presence). -/
theorem claim_notify_append_iff_present_cex :
    emptyDetailsReq.details = some "" ∧
    (postNotify true true gwOk emptyDetailsReq).1.statusCode = 200 ∧
    (postNotify true true gwOk emptyDetailsReq).2 = [statusTemplate "approved"] ∧
    ¬ statusTemplate "approved" = relaySpecMessage "approved" (some "") := by
  refine ⟨rfl, by decide, by decide, by decide⟩

/-- C8 amended: the relay rejects a malformed `recipientId` with 400 and
sends nothing; rejects a `statusKind` outside
submitted/approved/rejected (case-insensitively) with 400 and sends
nothing; on a valid request hands exactly one message to the gateway
(no retry: at most one send ever happens) and reports 404/200/500 by
the gateway outcome; the message is the fixed template of the status,
with `detailText` appended exactly when it is present AND non-empty. -/
theorem claim_notify_relay_contract (gw : Gateway) (req : NotifyRequest) :
    ((postNotify true true gw req).2.length ≤ 1) ∧
    ((jsTruthy req.discordId && jsTruthy req.status) = true →
      isValidDiscordId (req.discordId.getD "") = false →
      postNotify true true gw req
        = (⟨400, some "Invalid Discord ID format."⟩, [])) ∧
    ((jsTruthy req.discordId && jsTruthy req.status) = true →
      isValidDiscordId (req.discordId.getD "") = true →
      ¬ (jsToLower (req.status.getD "") = "submitted" ∨
         jsToLower (req.status.getD "") = "approved" ∨
         jsToLower (req.status.getD "") = "rejected") →
      postNotify true true gw req
        = (⟨400, some "Invalid status provided."⟩, [])) ∧
    ((jsTruthy req.discordId && jsTruthy req.status) = true →
      isValidDiscordId (req.discordId.getD "") = true →
      (jsToLower (req.status.getD "") = "submitted" ∨
       jsToLower (req.status.getD "") = "approved" ∨
       jsToLower (req.status.getD "") = "rejected") →
      postNotify true true gw req
        = if gw.userFetchOk = false then
            (⟨404, some "Discord user not found or bot cannot access this user."⟩, [])
          else if gw.dmSendOk = true then
            (⟨200, none⟩, [notifyMessage (jsToLower (req.status.getD "")) req.details])
          else
            (⟨500, some "Failed to send notification"⟩,
             [notifyMessage (jsToLower (req.status.getD "")) req.details])) ∧
    (jsTruthy req.details = true →
      notifyMessage (jsToLower (req.status.getD "")) req.details
        = statusTemplate (jsToLower (req.status.getD ""))
            ++ ("\n\n**Details:** " ++ (req.details.getD ""))) ∧
    (jsTruthy req.details = false →
      notifyMessage (jsToLower (req.status.getD "")) req.details
        = statusTemplate (jsToLower (req.status.getD ""))) := by
  refine ⟨?_, ?_, ?_, ?_, ?_, ?_⟩
  · unfold postNotify
    dsimp only
    split_ifs <;> simp
  · intro h1 h2
    simp [postNotify, h1, h2]
  · intro h1 h2 h3
    push_neg at h3
    obtain ⟨hs1, hs2, hs3⟩ := h3
    simp [postNotify, h1, h2, hs1, hs2, hs3]
  · intro h1 h2 h3
    rcases h3 with h3 | h3 | h3 <;>
      by_cases hf : gw.userFetchOk = true <;>
      by_cases hd : gw.dmSendOk = true <;>
      simp [postNotify, h1, h2, h3, hf, hd]
  · intro h
    simp [notifyMessage, h]
  · intro h
    simp [notifyMessage, h, String.append_empty]

end MikuBot
